import Mathlib

/-
  Verification development for spamdetector.cpp: a deterministic finite
  automaton that scans a stream of tagged message records and collects the
  numeric IDs of records whose body contains a spam keyword.

  The embedding is shallow: input bytes are Nat values below 256, the C
  char type is modelled by a signed reinterpretation, the guard and action
  function pointers become closed enumerations, each DFAstate object of
  main becomes a constructor of StateId, and the per state vector of
  transitionRecord entries becomes the list returned by transitions,
  preserving insertion order.  The main scan loop becomes runProg.
-/

namespace Spamdetector

/-- Signed value of an input byte: the C char type reinterprets byte values
at or above 128 as negative numbers, which is what the comparison guards of
the source see. -/
def signedVal (b : Nat) : Int :=
  if b < 128 then (b : Int) else (b : Int) - 256

/-- Closed enumeration of the charComparator functions of the source:
everything, digits, justChar, whitespace, delimiters. -/
inductive Guard where
  | everything
  | digits
  | justChar
  | whitespace
  | delimiters
deriving DecidableEq

/-- Evaluation of a guard on an input byte, with the optional comparand
(the comparedTo field, only read by justChar). -/
def evalGuard : Guard → Nat → Int → Bool
  | .everything, _, _ => true
  | .digits, c, _ => decide (48 ≤ signedVal c ∧ signedVal c ≤ 57)
  | .justChar, c, against => decide (signedVal c = against)
  | .whitespace, c, _ =>
      decide (signedVal c = 32 ∨ signedVal c = 9 ∨ signedVal c = 13 ∨ signedVal c = 10)
  | .delimiters, c, _ => decide (signedVal c = 32 ∨ signedVal c = 34)

/-- Closed enumeration of the charConsumer functions of the source. -/
inductive Action where
  | sayAccepted
  | newMsg
  | handleMIDdig
  | recordSpam
deriving DecidableEq

/-- Mutable program state touched by the actions: the globals
currentMessageNum and spamMessages of the source. -/
structure Ctx where
  currentMessageNum : Int
  spamMessages : List Int
deriving DecidableEq

/-- Effect of each action on the globals, given the input byte it is
invoked with.  sayAccepted only writes to the console and leaves the
globals unchanged. -/
def applyAction : Action → Nat → Ctx → Ctx
  | .sayAccepted, _, ctx => ctx
  | .newMsg, _, ctx => { ctx with currentMessageNum := 0 }
  | .handleMIDdig, c, ctx =>
      { ctx with currentMessageNum := ctx.currentMessageNum * 10 + (signedVal c - 48) }
  | .recordSpam, _, ctx =>
      { ctx with spamMessages := ctx.spamMessages ++ [ctx.currentMessageNum] }

/-- The DFAstate objects declared in main, one constructor per state, named
after the printable names main assigns. -/
inductive StateId where
  | start
  | openDoc_0 | openDoc_1 | openDoc_2 | openDoc_3 | openDoc_4
  | openDocID_0 | openDocID_1 | openDocID_2 | openDocID_3 | openDocID_4
  | openDocID_5 | openDocID_6
  | msg_0 | msg_1 | msg_2
  | msgdig_0 | msgdig_1
  | closeDocID_0 | closeDocID_1 | closeDocID_2 | closeDocID_3 | closeDocID_4
  | closeDocID_5 | closeDocID_6 | closeDocID_7
  | subject
  | notdelimited
  | delimited
  | free_stuff_0 | free_stuff_1 | free_stuff_2 | free_stuff_3 | free_stuff_4
  | free_access_0 | free_access_1 | free_access_2 | free_access_3
  | free_access_4 | free_access_5
  | free_software_0 | free_software_1 | free_software_2 | free_software_3
  | free_software_4 | free_software_5 | free_software_6 | free_software_7
  | free_vacation_0 | free_vacation_1 | free_vacation_2 | free_vacation_3
  | free_vacation_4 | free_vacation_5 | free_vacation_6 | free_vacation_7
  | free_trials_0 | free_trials_1 | free_trials_2 | free_trials_3
  | free_trials_4 | free_trials_5
  | win_0 | win_1 | win_2 | win_3
  | winners_0 | winners_1 | winners_2
  | winnings_0 | winnings_1 | winnings_2 | winnings_3
  | isSpam
  | closeDoc_0 | closeDoc_1 | closeDoc_2 | closeDoc_3 | closeDoc_4
  | closeDocSpam_0 | closeDocSpam_1 | closeDocSpam_2 | closeDocSpam_3
  | closeDocSpam_4
deriving DecidableEq

/-- One outgoing transition of a state: guard, destination, optional edge
action, optional comparand (the default comparand of the source is -129,
a value no byte reaches). -/
structure transitionRecord where
  onSymbols : Guard
  toState : StateId
  doing : Option Action
  comparedTo : Int
deriving DecidableEq

/-- Application of the optional edge action of a taken transition. -/
def applyDoing : Option Action → Nat → Ctx → Ctx
  | none, _, ctx => ctx
  | some a, c, ctx => applyAction a c ctx

/-- First transition of the list whose guard accepts the byte: the loop
inside DFAstate transitionWithChar. -/
def findAccepting (c : Nat) : List transitionRecord → Option transitionRecord
  | [] => none
  | r :: rs =>
      if evalGuard r.onSymbols c r.comparedTo = true then some r else findAccepting c rs

/-- The transitionWithChar member function: take the first accepting
transition of the rule list, run its action if present, and return the
destination state, or none when no guard accepts. -/
def transitionWithChar (rules : List transitionRecord) (c : Nat) (ctx : Ctx) :
    Option (StateId × Ctx) :=
  match findAccepting c rules with
  | none => none
  | some r => some (r.toState, applyDoing r.doing c ctx)

/-- The transition table built in main, lines 213 to 431 of the source: the
rule list of each state, in the order of the addTransition calls.
Comparands are the byte values of the character literals of the source. -/
def transitions : StateId → List transitionRecord
  | .start =>
      [⟨.justChar, .openDoc_0, none, 60⟩, ⟨.everything, .start, none, -129⟩]
  | .openDoc_0 =>
      [⟨.justChar, .openDoc_1, none, 68⟩, ⟨.everything, .start, none, -129⟩]
  | .openDoc_1 =>
      [⟨.justChar, .openDoc_2, none, 79⟩, ⟨.everything, .start, none, -129⟩]
  | .openDoc_2 =>
      [⟨.justChar, .openDoc_3, none, 67⟩, ⟨.everything, .start, none, -129⟩]
  | .openDoc_3 =>
      [⟨.justChar, .openDoc_4, some .newMsg, 62⟩, ⟨.everything, .start, none, -129⟩]
  | .openDoc_4 =>
      [⟨.whitespace, .openDoc_4, none, -129⟩, ⟨.justChar, .openDocID_0, none, 60⟩,
       ⟨.everything, .start, none, -129⟩]
  | .openDocID_0 =>
      [⟨.justChar, .openDocID_1, none, 68⟩, ⟨.everything, .start, none, -129⟩]
  | .openDocID_1 =>
      [⟨.justChar, .openDocID_2, none, 79⟩, ⟨.everything, .start, none, -129⟩]
  | .openDocID_2 =>
      [⟨.justChar, .openDocID_3, none, 67⟩, ⟨.everything, .start, none, -129⟩]
  | .openDocID_3 =>
      [⟨.justChar, .openDocID_4, none, 73⟩, ⟨.everything, .start, none, -129⟩]
  | .openDocID_4 =>
      [⟨.justChar, .openDocID_5, none, 68⟩, ⟨.everything, .start, none, -129⟩]
  | .openDocID_5 =>
      [⟨.justChar, .openDocID_6, none, 62⟩, ⟨.everything, .start, none, -129⟩]
  | .openDocID_6 =>
      [⟨.whitespace, .openDocID_6, none, -129⟩, ⟨.justChar, .msg_0, none, 109⟩,
       ⟨.everything, .start, none, -129⟩]
  | .msg_0 =>
      [⟨.justChar, .msg_1, none, 115⟩, ⟨.everything, .start, none, -129⟩]
  | .msg_1 =>
      [⟨.justChar, .msg_2, none, 103⟩, ⟨.everything, .start, none, -129⟩]
  | .msg_2 =>
      [⟨.digits, .msgdig_0, some .handleMIDdig, -129⟩, ⟨.everything, .start, none, -129⟩]
  | .msgdig_0 =>
      [⟨.justChar, .closeDocID_0, none, 60⟩, ⟨.whitespace, .msgdig_1, none, -129⟩,
       ⟨.digits, .msgdig_1, some .handleMIDdig, -129⟩, ⟨.everything, .start, none, -129⟩]
  | .msgdig_1 =>
      [⟨.justChar, .closeDocID_0, none, 60⟩, ⟨.whitespace, .msgdig_1, none, -129⟩,
       ⟨.everything, .start, none, -129⟩]
  | .closeDocID_0 =>
      [⟨.justChar, .closeDocID_1, none, 47⟩, ⟨.everything, .start, none, -129⟩]
  | .closeDocID_1 =>
      [⟨.justChar, .closeDocID_2, none, 68⟩, ⟨.everything, .start, none, -129⟩]
  | .closeDocID_2 =>
      [⟨.justChar, .closeDocID_3, none, 79⟩, ⟨.everything, .start, none, -129⟩]
  | .closeDocID_3 =>
      [⟨.justChar, .closeDocID_4, none, 67⟩, ⟨.everything, .start, none, -129⟩]
  | .closeDocID_4 =>
      [⟨.justChar, .closeDocID_5, none, 73⟩, ⟨.everything, .start, none, -129⟩]
  | .closeDocID_5 =>
      [⟨.justChar, .closeDocID_6, none, 68⟩, ⟨.everything, .start, none, -129⟩]
  | .closeDocID_6 =>
      [⟨.justChar, .closeDocID_7, none, 62⟩, ⟨.everything, .start, none, -129⟩]
  | .closeDocID_7 =>
      [⟨.justChar, .subject, none, 10⟩, ⟨.everything, .closeDocID_7, none, -129⟩]
  | .subject =>
      [⟨.justChar, .delimited, none, 10⟩, ⟨.whitespace, .subject, none, -129⟩,
       ⟨.everything, .closeDocID_7, none, -129⟩]
  | .notdelimited =>
      [⟨.justChar, .closeDoc_0, none, 60⟩, ⟨.delimiters, .delimited, none, -129⟩,
       ⟨.everything, .notdelimited, none, -129⟩]
  | .delimited =>
      [⟨.justChar, .free_stuff_0, none, 102⟩, ⟨.justChar, .win_0, none, 119⟩,
       ⟨.justChar, .closeDoc_0, none, 60⟩, ⟨.delimiters, .delimited, none, -129⟩,
       ⟨.everything, .notdelimited, none, -129⟩]
  | .isSpam =>
      [⟨.justChar, .closeDocSpam_0, none, 60⟩, ⟨.everything, .isSpam, none, -129⟩]
  | .closeDoc_0 =>
      [⟨.justChar, .closeDoc_1, none, 47⟩, ⟨.delimiters, .delimited, none, -129⟩,
       ⟨.everything, .notdelimited, none, -129⟩]
  | .closeDoc_1 =>
      [⟨.justChar, .closeDoc_2, none, 68⟩, ⟨.delimiters, .delimited, none, -129⟩,
       ⟨.everything, .notdelimited, none, -129⟩]
  | .closeDoc_2 =>
      [⟨.justChar, .closeDoc_3, none, 79⟩, ⟨.delimiters, .delimited, none, -129⟩,
       ⟨.everything, .notdelimited, none, -129⟩]
  | .closeDoc_3 =>
      [⟨.justChar, .closeDoc_4, none, 67⟩, ⟨.delimiters, .delimited, none, -129⟩,
       ⟨.everything, .notdelimited, none, -129⟩]
  | .closeDoc_4 =>
      [⟨.justChar, .start, none, 62⟩, ⟨.delimiters, .delimited, none, -129⟩,
       ⟨.everything, .notdelimited, none, -129⟩]
  | .closeDocSpam_0 =>
      [⟨.justChar, .closeDocSpam_1, none, 47⟩, ⟨.everything, .isSpam, none, -129⟩]
  | .closeDocSpam_1 =>
      [⟨.justChar, .closeDocSpam_2, none, 68⟩, ⟨.everything, .isSpam, none, -129⟩]
  | .closeDocSpam_2 =>
      [⟨.justChar, .closeDocSpam_3, none, 79⟩, ⟨.everything, .isSpam, none, -129⟩]
  | .closeDocSpam_3 =>
      [⟨.justChar, .closeDocSpam_4, none, 67⟩, ⟨.everything, .isSpam, none, -129⟩]
  | .closeDocSpam_4 =>
      [⟨.justChar, .start, none, 62⟩, ⟨.everything, .isSpam, none, -129⟩]
  | .win_0 =>
      [⟨.justChar, .win_1, none, 105⟩, ⟨.delimiters, .delimited, none, -129⟩,
       ⟨.everything, .notdelimited, none, -129⟩]
  | .win_1 =>
      [⟨.justChar, .win_2, none, 110⟩, ⟨.delimiters, .delimited, none, -129⟩,
       ⟨.everything, .notdelimited, none, -129⟩]
  | .win_2 =>
      [⟨.justChar, .win_3, none, 110⟩, ⟨.delimiters, .isSpam, some .recordSpam, -129⟩,
       ⟨.everything, .notdelimited, none, -129⟩]
  | .win_3 =>
      [⟨.justChar, .winners_0, none, 101⟩, ⟨.justChar, .winnings_0, none, 105⟩,
       ⟨.delimiters, .delimited, none, -129⟩, ⟨.everything, .notdelimited, none, -129⟩]
  | .winners_0 =>
      [⟨.justChar, .winners_1, none, 114⟩, ⟨.delimiters, .delimited, none, -129⟩,
       ⟨.everything, .notdelimited, none, -129⟩]
  | .winners_1 =>
      [⟨.justChar, .winners_2, none, 115⟩, ⟨.delimiters, .isSpam, some .recordSpam, -129⟩,
       ⟨.everything, .notdelimited, none, -129⟩]
  | .winners_2 =>
      [⟨.delimiters, .isSpam, some .recordSpam, -129⟩,
       ⟨.everything, .notdelimited, none, -129⟩]
  | .winnings_0 =>
      [⟨.justChar, .winnings_1, none, 110⟩, ⟨.delimiters, .delimited, none, -129⟩,
       ⟨.everything, .notdelimited, none, -129⟩]
  | .winnings_1 =>
      [⟨.justChar, .winnings_2, none, 103⟩, ⟨.delimiters, .delimited, none, -129⟩,
       ⟨.everything, .notdelimited, none, -129⟩]
  | .winnings_2 =>
      [⟨.justChar, .winnings_3, none, 115⟩, ⟨.delimiters, .delimited, none, -129⟩,
       ⟨.everything, .notdelimited, none, -129⟩]
  | .winnings_3 =>
      [⟨.delimiters, .isSpam, some .recordSpam, -129⟩,
       ⟨.everything, .notdelimited, none, -129⟩]
  | .free_stuff_0 =>
      [⟨.justChar, .free_stuff_1, none, 114⟩, ⟨.delimiters, .delimited, none, -129⟩,
       ⟨.everything, .notdelimited, none, -129⟩]
  | .free_stuff_1 =>
      [⟨.justChar, .free_stuff_2, none, 101⟩, ⟨.delimiters, .delimited, none, -129⟩,
       ⟨.everything, .notdelimited, none, -129⟩]
  | .free_stuff_2 =>
      [⟨.justChar, .free_stuff_3, none, 101⟩, ⟨.delimiters, .delimited, none, -129⟩,
       ⟨.everything, .notdelimited, none, -129⟩]
  | .free_stuff_3 =>
      [⟨.justChar, .free_stuff_4, none, 32⟩, ⟨.justChar, .delimited, none, 34⟩,
       ⟨.everything, .notdelimited, none, -129⟩]
  | .free_stuff_4 =>
      [⟨.justChar, .free_stuff_0, none, 102⟩, ⟨.justChar, .win_0, none, 119⟩,
       ⟨.justChar, .closeDoc_0, none, 60⟩, ⟨.justChar, .free_access_0, none, 97⟩,
       ⟨.justChar, .free_software_0, none, 115⟩, ⟨.justChar, .free_trials_0, none, 116⟩,
       ⟨.justChar, .free_vacation_0, none, 118⟩, ⟨.delimiters, .delimited, none, -129⟩,
       ⟨.everything, .notdelimited, none, -129⟩]
  | .free_access_0 =>
      [⟨.justChar, .free_access_1, none, 99⟩, ⟨.delimiters, .delimited, none, -129⟩,
       ⟨.everything, .notdelimited, none, -129⟩]
  | .free_access_1 =>
      [⟨.justChar, .free_access_2, none, 99⟩, ⟨.delimiters, .delimited, none, -129⟩,
       ⟨.everything, .notdelimited, none, -129⟩]
  | .free_access_2 =>
      [⟨.justChar, .free_access_3, none, 101⟩, ⟨.delimiters, .delimited, none, -129⟩,
       ⟨.everything, .notdelimited, none, -129⟩]
  | .free_access_3 =>
      [⟨.justChar, .free_access_4, none, 115⟩, ⟨.delimiters, .delimited, none, -129⟩,
       ⟨.everything, .notdelimited, none, -129⟩]
  | .free_access_4 =>
      [⟨.justChar, .free_access_5, none, 115⟩, ⟨.delimiters, .delimited, none, -129⟩,
       ⟨.everything, .notdelimited, none, -129⟩]
  | .free_access_5 =>
      [⟨.delimiters, .isSpam, some .recordSpam, -129⟩,
       ⟨.everything, .notdelimited, none, -129⟩]
  | .free_software_0 =>
      [⟨.justChar, .free_software_1, none, 111⟩, ⟨.delimiters, .delimited, none, -129⟩,
       ⟨.everything, .notdelimited, none, -129⟩]
  | .free_software_1 =>
      [⟨.justChar, .free_software_2, none, 102⟩, ⟨.delimiters, .delimited, none, -129⟩,
       ⟨.everything, .notdelimited, none, -129⟩]
  | .free_software_2 =>
      [⟨.justChar, .free_software_3, none, 116⟩, ⟨.delimiters, .delimited, none, -129⟩,
       ⟨.everything, .notdelimited, none, -129⟩]
  | .free_software_3 =>
      [⟨.justChar, .free_software_4, none, 119⟩, ⟨.delimiters, .delimited, none, -129⟩,
       ⟨.everything, .notdelimited, none, -129⟩]
  | .free_software_4 =>
      [⟨.justChar, .free_software_5, none, 97⟩, ⟨.delimiters, .delimited, none, -129⟩,
       ⟨.everything, .notdelimited, none, -129⟩]
  | .free_software_5 =>
      [⟨.justChar, .free_software_6, none, 114⟩, ⟨.delimiters, .delimited, none, -129⟩,
       ⟨.everything, .notdelimited, none, -129⟩]
  | .free_software_6 =>
      [⟨.justChar, .free_software_7, none, 101⟩, ⟨.delimiters, .delimited, none, -129⟩,
       ⟨.everything, .notdelimited, none, -129⟩]
  | .free_software_7 =>
      [⟨.delimiters, .isSpam, some .recordSpam, -129⟩,
       ⟨.everything, .notdelimited, none, -129⟩]
  | .free_trials_0 =>
      [⟨.justChar, .free_trials_1, none, 114⟩, ⟨.delimiters, .delimited, none, -129⟩,
       ⟨.everything, .notdelimited, none, -129⟩]
  | .free_trials_1 =>
      [⟨.justChar, .free_trials_2, none, 105⟩, ⟨.delimiters, .delimited, none, -129⟩,
       ⟨.everything, .notdelimited, none, -129⟩]
  | .free_trials_2 =>
      [⟨.justChar, .free_trials_3, none, 97⟩, ⟨.delimiters, .delimited, none, -129⟩,
       ⟨.everything, .notdelimited, none, -129⟩]
  | .free_trials_3 =>
      [⟨.justChar, .free_trials_4, none, 108⟩, ⟨.delimiters, .delimited, none, -129⟩,
       ⟨.everything, .notdelimited, none, -129⟩]
  | .free_trials_4 =>
      [⟨.justChar, .free_trials_5, none, 115⟩, ⟨.delimiters, .delimited, none, -129⟩,
       ⟨.everything, .notdelimited, none, -129⟩]
  | .free_trials_5 =>
      [⟨.delimiters, .isSpam, some .recordSpam, -129⟩,
       ⟨.everything, .notdelimited, none, -129⟩]
  | .free_vacation_0 =>
      [⟨.justChar, .free_vacation_1, none, 97⟩, ⟨.delimiters, .delimited, none, -129⟩,
       ⟨.everything, .notdelimited, none, -129⟩]
  | .free_vacation_1 =>
      [⟨.justChar, .free_vacation_2, none, 99⟩, ⟨.delimiters, .delimited, none, -129⟩,
       ⟨.everything, .notdelimited, none, -129⟩]
  | .free_vacation_2 =>
      [⟨.justChar, .free_vacation_3, none, 97⟩, ⟨.delimiters, .delimited, none, -129⟩,
       ⟨.everything, .notdelimited, none, -129⟩]
  | .free_vacation_3 =>
      [⟨.justChar, .free_vacation_4, none, 116⟩, ⟨.delimiters, .delimited, none, -129⟩,
       ⟨.everything, .notdelimited, none, -129⟩]
  | .free_vacation_4 =>
      [⟨.justChar, .free_vacation_5, none, 105⟩, ⟨.delimiters, .delimited, none, -129⟩,
       ⟨.everything, .notdelimited, none, -129⟩]
  | .free_vacation_5 =>
      [⟨.justChar, .free_vacation_6, none, 111⟩, ⟨.delimiters, .delimited, none, -129⟩,
       ⟨.everything, .notdelimited, none, -129⟩]
  | .free_vacation_6 =>
      [⟨.justChar, .free_vacation_7, none, 110⟩, ⟨.delimiters, .delimited, none, -129⟩,
       ⟨.everything, .notdelimited, none, -129⟩]
  | .free_vacation_7 =>
      [⟨.delimiters, .isSpam, some .recordSpam, -129⟩,
       ⟨.everything, .notdelimited, none, -129⟩]

/-- Run of the automaton over a list of input bytes from a given state and
context, under a given transition table: returns the final state and
context, or none when some step has no accepting rule. -/
def runFrom (tbl : StateId → List transitionRecord) :
    StateId → Ctx → List Nat → Option (StateId × Ctx)
  | s, ctx, [] => some (s, ctx)
  | s, ctx, c :: rest =>
      match transitionWithChar (tbl s) c ctx with
      | none => none
      | some st => runFrom tbl st.1 st.2 rest

/-- Observable outcome of main: on success the list of spam message IDs it
prints, on an unhandled symbol the error line written to cerr and the
input bytes left unconsumed when the scan stopped. -/
inductive ProgOutcome where
  | success (spam : List Int)
  | failure (errMsg : String) (rest : List Nat)
deriving DecidableEq

/-- The error line main writes to cerr when the current state pointer is
null: it names the offending symbol and nothing else. -/
def errLine (c : Nat) : String :=
  "Error: Unhandled symbol:" ++ String.mk [Char.ofNat c]

/-- The scan loop of main: step through the input one byte at a time; a
step with no accepting rule makes the state pointer null, and the next
loop iteration then exits with the error line before reading any further
input; on end of input the collected spam IDs are reported. -/
def runProg (tbl : StateId → List transitionRecord) :
    StateId → Ctx → List Nat → ProgOutcome
  | _, ctx, [] => .success ctx.spamMessages
  | s, ctx, c :: rest =>
      match transitionWithChar (tbl s) c ctx with
      | none => .failure (errLine c) rest
      | some st => runProg tbl st.1 st.2 rest

/-- Exit code of main for each outcome: 0 on success, -1 on the unhandled
symbol error. -/
def exitCode : ProgOutcome → Int
  | .success _ => 0
  | .failure _ _ => -1

/-- The flagged ID report main prints: present only on success. -/
def spamReport : ProgOutcome → Option (List Int)
  | .success l => some l
  | .failure _ _ => none

/-- Initial context: both globals are zero initialized. -/
def initCtx : Ctx := ⟨0, []⟩

/-- The whole program on a list of input bytes: the scan starts at the
start state with zeroed globals. -/
def spamdetector (input : List Nat) : ProgOutcome :=
  runProg transitions .start initCtx input

/-- Byte list of an ASCII string, for writing concrete inputs. -/
def bytes (s : String) : List Nat :=
  s.toList.map Char.toNat

/-- The flagged sink states: the isSpam state and the closing tag chain
that is reachable from it. -/
def spamSink : List StateId :=
  [.isSpam, .closeDocSpam_0, .closeDocSpam_1, .closeDocSpam_2, .closeDocSpam_3,
   .closeDocSpam_4]

/-- The states of the phrase matching chains. -/
def phraseStates : List StateId :=
  [.win_0, .win_1, .win_2, .win_3,
   .winners_0, .winners_1, .winners_2,
   .winnings_0, .winnings_1, .winnings_2, .winnings_3,
   .free_stuff_0, .free_stuff_1, .free_stuff_2, .free_stuff_3, .free_stuff_4,
   .free_access_0, .free_access_1, .free_access_2, .free_access_3,
   .free_access_4, .free_access_5,
   .free_software_0, .free_software_1, .free_software_2, .free_software_3,
   .free_software_4, .free_software_5, .free_software_6, .free_software_7,
   .free_trials_0, .free_trials_1, .free_trials_2, .free_trials_3,
   .free_trials_4, .free_trials_5,
   .free_vacation_0, .free_vacation_1, .free_vacation_2, .free_vacation_3,
   .free_vacation_4, .free_vacation_5, .free_vacation_6, .free_vacation_7]

/-- Destination and action of a transition, the data that determines the
effect of taking it. -/
def projTR (r : transitionRecord) : StateId × Option Action := (r.toState, r.doing)

/-- A table with no transitions anywhere, as a DFAstate object has before
any addTransition call. -/
def emptyTable : StateId → List transitionRecord := fun _ => []

/-- Membership of the transition found by the search loop. -/
theorem findAccepting_mem {c : Nat} :
    ∀ {rules : List transitionRecord} {r : transitionRecord},
      findAccepting c rules = some r → r ∈ rules := by
  intro rules
  induction rules with
  | nil => intro r h; simp [findAccepting] at h
  | cons r0 rs ih =>
      intro r h
      simp only [findAccepting] at h
      split at h
      · injection h with h2; subst h2; exact List.mem_cons_self _ _
      · exact List.mem_cons_of_mem _ (ih h)

/-- Decomposition of a successful step into the transition it took. -/
theorem transitionWithChar_eq_some {rules : List transitionRecord} {c : Nat} {ctx : Ctx}
    {t : StateId} {ctx2 : Ctx} (h : transitionWithChar rules c ctx = some (t, ctx2)) :
    ∃ r, findAccepting c rules = some r ∧ r ∈ rules ∧ t = r.toState ∧
      ctx2 = applyDoing r.doing c ctx := by
  unfold transitionWithChar at h
  cases hf : findAccepting c rules with
  | none => rw [hf] at h; cases h
  | some r =>
      rw [hf] at h
      simp only [Option.some.injEq, Prod.mk.injEq] at h
      exact ⟨r, rfl, findAccepting_mem hf, h.1.symm, h.2.symm⟩

/-- A rule list holding a catch-all rule always yields a transition. -/
theorem findAccepting_isSome_of_everything {c : Nat} :
    ∀ {rules : List transitionRecord},
      (∃ r ∈ rules, r.onSymbols = Guard.everything) → (findAccepting c rules).isSome := by
  intro rules
  induction rules with
  | nil => rintro ⟨r, hr, _⟩; cases hr
  | cons r0 rs ih =>
      rintro ⟨r, hr, hev⟩
      simp only [findAccepting]
      split
      · rfl
      · rename_i hfalse
        rcases List.mem_cons.mp hr with h0 | hmem
        · subst h0; rw [hev] at hfalse; simp [evalGuard] at hfalse
        · exact ih ⟨r, hmem, hev⟩

/-- Every state of the shipped automaton ends its rule list in the
catch-all everything guard. -/
theorem transitions_cover (s : StateId) :
    ∃ r ∈ transitions s, r.onSymbols = Guard.everything := by
  cases s <;> decide

/-- Every state of the shipped automaton handles every input byte. -/
theorem step_isSome (s : StateId) (c : Nat) (ctx : Ctx) :
    (transitionWithChar (transitions s) c ctx).isSome := by
  unfold transitionWithChar
  cases hf : findAccepting c (transitions s) with
  | none =>
      have hsome := findAccepting_isSome_of_everything (c := c) (transitions_cover s)
      rw [hf] at hsome; cases hsome
  | some r => rfl

/-- Index characterization of the search loop: the transition returned is
the first accepting one in declaration order. -/
theorem findAccepting_first {c : Nat} :
    ∀ {rules : List transitionRecord} {r : transitionRecord},
      findAccepting c rules = some r →
      ∃ i, ∃ hi : i < rules.length,
        rules.get ⟨i, hi⟩ = r ∧
        evalGuard r.onSymbols c r.comparedTo = true ∧
        ∀ j, ∀ hj : j < rules.length, j < i →
          evalGuard (rules.get ⟨j, hj⟩).onSymbols c (rules.get ⟨j, hj⟩).comparedTo = false := by
  intro rules
  induction rules with
  | nil => intro r h; simp [findAccepting] at h
  | cons r0 rs ih =>
      intro r h
      simp only [findAccepting] at h
      split at h
      · rename_i htrue
        injection h with h2
        subst h2
        exact ⟨0, Nat.succ_pos _, rfl, htrue,
          fun j hj hj0 => absurd hj0 (Nat.not_lt_zero j)⟩
      · rename_i hfalse
        obtain ⟨i, hi, hget, hev, hearlier⟩ := ih h
        refine ⟨i + 1, Nat.succ_lt_succ hi, hget, hev, ?_⟩
        intro j hj hji
        cases j with
        | zero =>
            have : evalGuard r0.onSymbols c r0.comparedTo = false := by
              cases hb : evalGuard r0.onSymbols c r0.comparedTo
              · rfl
              · exact absurd hb hfalse
            exact this
        | succ k =>
            exact hearlier k (Nat.lt_of_succ_lt_succ hj) (Nat.lt_of_succ_lt_succ hji)

/-- An action other than recordSpam leaves the spam list unchanged. -/
theorem applyDoing_spamMessages (d : Option Action) (c : Nat) (ctx : Ctx)
    (h : d ≠ some Action.recordSpam) :
    (applyDoing d c ctx).spamMessages = ctx.spamMessages := by
  match d with
  | none => rfl
  | some .sayAccepted => rfl
  | some .newMsg => rfl
  | some .handleMIDdig => rfl
  | some .recordSpam => exact absurd rfl h

/-- Every transition of the shipped automaton carrying the recordSpam
action targets the isSpam state. -/
theorem recordSpam_to_isSpam (s : StateId) :
    ∀ r ∈ transitions s, r.doing = some Action.recordSpam →
      r.toState = StateId.isSpam := by
  cases s <;> decide

/-- Every rule of the flagged sink states is action free and targets the
sink or the start state. -/
theorem spamSink_rules :
    ∀ s ∈ spamSink, ∀ r ∈ transitions s,
      r.doing = none ∧ (r.toState ∈ spamSink ∨ r.toState = StateId.start) := by
  decide

/-- A scan over concatenated input factors through the state and context
reached after the first part. -/
theorem runProg_append (tbl : StateId → List transitionRecord) :
    ∀ (pre : List Nat) (s0 : StateId) (ctx0 : Ctx) (s : StateId) (ctx : Ctx)
      (l : List Nat),
      runFrom tbl s0 ctx0 pre = some (s, ctx) →
      runProg tbl s0 ctx0 (pre ++ l) = runProg tbl s ctx l := by
  intro pre
  induction pre with
  | nil =>
      intro s0 ctx0 s ctx l h
      simp only [runFrom, Option.some.injEq, Prod.mk.injEq] at h
      rw [List.nil_append, h.1, h.2]
  | cons c rest ih =>
      intro s0 ctx0 s ctx l h
      cases hstep : transitionWithChar (tbl s0) c ctx0 with
      | none =>
          simp only [runFrom, hstep] at h
          exact Option.noConfusion h
      | some st =>
          simp only [runFrom, hstep] at h
          have h2 := ih st.1 st.2 s ctx l h
          rw [List.cons_append]
          calc runProg tbl s0 ctx0 (c :: (rest ++ l))
              = runProg tbl st.1 st.2 (rest ++ l) := by
                simp only [runProg, hstep]
            _ = runProg tbl s ctx l := h2

/-- Claim C1: scanning the record with DOCID text msg42 and body line
You win today followed by a double quote terminates normally with flagged
sequence [42], while the otherwise identical record whose body line is
You window today yields the empty flagged sequence. -/
theorem endToEndScenario :
    spamdetector (bytes "<DOC><DOCID>msg42</DOCID>\nSubj\n\nYou win today\"\n</DOC>") =
      .success [42] ∧
    spamdetector (bytes "<DOC><DOCID>msg42</DOCID>\nSubj\n\nYou window today\n</DOC>") =
      .success [] :=
  ⟨rfl, rfl⟩

/-- Claim C2: every state of the automaton built in main has a rule whose
guard accepts any byte, so transitionWithChar never returns none and every
scan of the shipped automaton ends in the success outcome, for any input:
the unhandled symbol condition is unreachable. -/
theorem coverageTotal :
    (∀ (s : StateId) (c : Nat) (ctx : Ctx),
        (transitionWithChar (transitions s) c ctx).isSome) ∧
    (∀ (s : StateId) (ctx : Ctx) (input : List Nat),
        ∃ l, runProg transitions s ctx input = .success l) := by
  refine ⟨step_isSome, ?_⟩
  intro s ctx input
  induction input generalizing s ctx with
  | nil => exact ⟨ctx.spamMessages, rfl⟩
  | cons c rest ih =>
      cases hstep : transitionWithChar (transitions s) c ctx with
      | none =>
          have hsome := step_isSome s c ctx
          rw [hstep] at hsome; cases hsome
      | some st =>
          obtain ⟨l, hl⟩ := ih st.1 st.2
          refine ⟨l, ?_⟩
          calc runProg transitions s ctx (c :: rest)
              = runProg transitions st.1 st.2 rest := by simp only [runProg, hstep]
            _ = .success l := hl

/-- Claim C3: a successful step takes the first rule, in declaration
order, whose guard accepts the byte; every earlier rule rejects it, the
destination is that rule's target, and the new context is the result of
applying that rule's optional action once to the byte. -/
theorem firstMatchingRule (s : StateId) (c : Nat) (ctx : Ctx) (t : StateId) (ctx2 : Ctx)
    (h : transitionWithChar (transitions s) c ctx = some (t, ctx2)) :
    ∃ i, ∃ hi : i < (transitions s).length,
      evalGuard ((transitions s).get ⟨i, hi⟩).onSymbols c
          ((transitions s).get ⟨i, hi⟩).comparedTo = true ∧
      (∀ j, ∀ hj : j < (transitions s).length, j < i →
        evalGuard ((transitions s).get ⟨j, hj⟩).onSymbols c
            ((transitions s).get ⟨j, hj⟩).comparedTo = false) ∧
      t = ((transitions s).get ⟨i, hi⟩).toState ∧
      ctx2 = applyDoing ((transitions s).get ⟨i, hi⟩).doing c ctx := by
  obtain ⟨r, hf, _, ht, hctx⟩ := transitionWithChar_eq_some h
  obtain ⟨i, hi, hget, hev, hearlier⟩ := findAccepting_first hf
  exact ⟨i, hi, by rw [hget]; exact hev, hearlier,
    by rw [hget]; exact ht, by rw [hget]; exact hctx⟩

/-- Witness for C3: from the start state the byte 60 takes the first rule
to openDoc_0 with no action. -/
theorem firstMatchingRule_spot :
    ∃ i, ∃ hi : i < (transitions StateId.start).length,
      evalGuard ((transitions StateId.start).get ⟨i, hi⟩).onSymbols 60
          ((transitions StateId.start).get ⟨i, hi⟩).comparedTo = true ∧
      (∀ j, ∀ hj : j < (transitions StateId.start).length, j < i →
        evalGuard ((transitions StateId.start).get ⟨j, hj⟩).onSymbols 60
            ((transitions StateId.start).get ⟨j, hj⟩).comparedTo = false) ∧
      StateId.openDoc_0 = ((transitions StateId.start).get ⟨i, hi⟩).toState ∧
      initCtx = applyDoing ((transitions StateId.start).get ⟨i, hi⟩).doing 60 initCtx :=
  firstMatchingRule .start 60 initCtx .openDoc_0 initCtx rfl

/-- Claim C4: from the flagged sink states every step stays in the sink or
returns to start and leaves the context untouched; any step of the whole
automaton that changes the spam list lands in isSpam; the closing marker
returns the sink to start; and a body holding two spam phrases appends
exactly once. -/
theorem atMostOneFlagPerRecord :
    (∀ s ∈ spamSink, ∀ (c : Nat) (ctx : Ctx) (t : StateId) (ctx2 : Ctx),
        transitionWithChar (transitions s) c ctx = some (t, ctx2) →
        (t ∈ spamSink ∨ t = StateId.start) ∧ ctx2 = ctx) ∧
    (∀ (s : StateId) (c : Nat) (ctx : Ctx) (t : StateId) (ctx2 : Ctx),
        transitionWithChar (transitions s) c ctx = some (t, ctx2) →
        ctx2.spamMessages ≠ ctx.spamMessages → t = StateId.isSpam) ∧
    runFrom transitions .isSpam ⟨5, [5]⟩ (bytes "</DOC>") = some (.start, ⟨5, [5]⟩) ∧
    runFrom transitions .delimited ⟨9, []⟩ (bytes " win free software ") =
      some (.isSpam, ⟨9, [9]⟩) := by
  refine ⟨?_, ?_, rfl, rfl⟩
  · intro s hs c ctx t ctx2 h
    obtain ⟨r, _, hmem, ht, hctx⟩ := transitionWithChar_eq_some h
    obtain ⟨hdoing, htarget⟩ := spamSink_rules s hs r hmem
    subst ht
    refine ⟨htarget, ?_⟩
    rw [hctx, hdoing]
    rfl
  · intro s c ctx t ctx2 h hne
    obtain ⟨r, _, hmem, ht, hctx⟩ := transitionWithChar_eq_some h
    subst ht
    by_cases hr : r.doing = some Action.recordSpam
    · exact recordSpam_to_isSpam s r hmem hr
    · exfalso
      apply hne
      rw [hctx]
      exact applyDoing_spamMessages r.doing c ctx hr

/-- Witness for C4: the step out of isSpam on byte 65 stays in the sink
with the context untouched. -/
theorem atMostOneFlagPerRecord_spot :
    (StateId.isSpam ∈ spamSink ∨ StateId.isSpam = StateId.start) ∧ initCtx = initCtx :=
  atMostOneFlagPerRecord.1 .isSpam (by decide) 65 initCtx .isSpam initCtx rfl

/-- Claim C5: inside a record body, winning followed by a non delimiter
does not flag; win followed by a space flags, win wrapped in double
quotes flags; winn reaches the shared prefix state win_3 without
flagging, winners alone reaches winners_2 without flagging, and winners
followed by a delimiter flags. -/
theorem boundaryEnforcement :
    runFrom transitions .delimited ⟨7, []⟩ (bytes "winningx") =
      some (.notdelimited, ⟨7, []⟩) ∧
    runFrom transitions .delimited ⟨7, []⟩ (bytes "win ") = some (.isSpam, ⟨7, [7]⟩) ∧
    runFrom transitions .delimited ⟨7, []⟩ (bytes "\"win\"") = some (.isSpam, ⟨7, [7]⟩) ∧
    runFrom transitions .delimited ⟨7, []⟩ (bytes "winn") = some (.win_3, ⟨7, []⟩) ∧
    runFrom transitions .delimited ⟨7, []⟩ (bytes "winners") =
      some (.winners_2, ⟨7, []⟩) ∧
    runFrom transitions .delimited ⟨7, []⟩ (bytes "winners ") =
      some (.isSpam, ⟨7, [7]⟩) :=
  ⟨rfl, rfl, rfl, rfl, rfl, rfl⟩

/-- Claim C6 evaluated on the code: the digit sequence 1, 2, 3 after the
msg prefix does not reconstruct 123; the third digit finds no digit rule
in state msgdig_1 and its catch-all returns to start with the accumulator
stuck at 12, so the whole record is lost, while the two digit identifier
12 round-trips. -/
theorem identifierDigits_bug :
    runFrom transitions .msg_2 ⟨0, []⟩ (bytes "123") = some (.start, ⟨12, []⟩) ∧
    spamdetector (bytes "<DOC><DOCID>msg123</DOCID>\nSubj\n\n win \n</DOC>") =
      .success [] ∧
    spamdetector (bytes "<DOC><DOCID>msg12</DOCID>\nSubj\n\n win \n</DOC>") =
      .success [12] :=
  ⟨rfl, rfl, rfl⟩

/-- Claim C10: a spurious angle bracket right before the open marker makes
openDoc_0 take its catch-all back to start, so the well-formed marker that
follows is missed: the record with the extra bracket is never opened and
never flagged, while the same record without it is flagged. -/
theorem spuriousAngleMissesRecord :
    transitionWithChar (transitions .openDoc_0) 60 initCtx = some (.start, initCtx) ∧
    runFrom transitions .start initCtx (bytes "<<DOC>") = some (.start, initCtx) ∧
    spamdetector (bytes "<<DOC><DOCID>msg5</DOCID>\nSubj\n\n win \n</DOC>") =
      .success [] ∧
    spamdetector (bytes "<DOC><DOCID>msg5</DOCID>\nSubj\n\n win \n</DOC>") =
      .success [5] :=
  ⟨rfl, rfl, rfl, rfl⟩

/-- Counterexample to C7: a flagged phrase on the line immediately after a
nonblank subject line is not matched: the record with body line win right
after the subject line Subj yields no flag, and the scan is still in the
subject skipping state after the subject newline and further text. -/
theorem subjectSkip_cex :
    spamdetector (bytes "<DOC><DOCID>msg7</DOCID>\nSubj\n win \n</DOC>") =
      .success [] ∧
    spamdetector (bytes "<DOC><DOCID>msg7</DOCID>\nSubj\n win \n</DOC>") ≠
      .success [7] ∧
    runFrom transitions .closeDocID_7 ⟨7, []⟩ (bytes "\nSubj\n w") =
      some (.closeDocID_7, ⟨7, []⟩) := by
  refine ⟨rfl, ?_, rfl⟩
  intro h
  rw [show spamdetector (bytes "<DOC><DOCID>msg7</DOCID>\nSubj\n win \n</DOC>") =
      ProgOutcome.success [] from rfl] at h
  exact absurd h (by decide)

/-- Claim C7 (amended): after the closing angle of the DOCID marker the
scanner stays in the pair closeDocID_7 and subject: a newline moves
closeDocID_7 to subject, and from subject a newline enters the body state
delimited, other whitespace stays in subject, and any other byte returns
to closeDocID_7; so the body is entered only after a newline that follows
a line of only whitespace, and flagged phrases after such a blank line are
matched. -/
theorem subjectSkip_amended :
    (∀ (c : Nat) (ctx : Ctx),
        transitionWithChar (transitions .closeDocID_7) c ctx =
          some ((if signedVal c = 10 then .subject else .closeDocID_7), ctx)) ∧
    (∀ (c : Nat) (ctx : Ctx),
        transitionWithChar (transitions .subject) c ctx =
          some ((if signedVal c = 10 then .delimited
                 else if evalGuard .whitespace c (-129) = true then .subject
                 else .closeDocID_7), ctx)) ∧
    spamdetector (bytes "<DOC><DOCID>msg7</DOCID>\nSubj\n\n win \n</DOC>") =
      .success [7] := by
  refine ⟨?_, ?_, rfl⟩
  · intro c ctx
    by_cases h : signedVal c = 10
    · simp [transitionWithChar, findAccepting, transitions, evalGuard, applyDoing, h]
    · simp [transitionWithChar, findAccepting, transitions, evalGuard, applyDoing, h]
  · intro c ctx
    by_cases h : signedVal c = 10
    · simp [transitionWithChar, findAccepting, transitions, evalGuard, applyDoing, h]
    · by_cases hw : signedVal c = 32 ∨ signedVal c = 9 ∨ signedVal c = 13
      · simp [transitionWithChar, findAccepting, transitions, evalGuard, applyDoing, h, hw]
      · simp [transitionWithChar, findAccepting, transitions, evalGuard, applyDoing, h, hw]

/-- Counterexample to C8: the byte 60, which does not continue any phrase,
is not treated by the phrase state win_0 the way the generic scanning
states treat it: win_0 sends it to notdelimited while notdelimited sends
it into the close tag chain. -/
theorem phraseFallback_cex :
    transitionWithChar (transitions .win_0) 60 initCtx =
      some (.notdelimited, initCtx) ∧
    transitionWithChar (transitions .notdelimited) 60 initCtx =
      some (.closeDoc_0, initCtx) ∧
    StateId.notdelimited ≠ StateId.closeDoc_0 :=
  ⟨rfl, rfl, by decide⟩

set_option maxRecDepth 100000 in
/-- Exhaustive check behind the amended C8, over all phrase states and all
bytes: when every phrase specific rule rejects the byte and the byte is
not the open angle bracket, the transition found has the same destination
and action as the one found from notdelimited. -/
theorem phraseFallback_core :
    ∀ s ∈ phraseStates, ∀ c, c < 256 →
      (∀ r ∈ transitions s,
          r.toState ≠ StateId.delimited → r.toState ≠ StateId.notdelimited →
          evalGuard r.onSymbols c r.comparedTo = false) →
      signedVal c ≠ 60 →
      Option.map projTR (findAccepting c (transitions s)) =
        Option.map projTR (findAccepting c (transitions .notdelimited)) := by
  decide

/-- Claim C8 (amended): for every phrase matcher state and every byte that
rejects all of that state's phrase specific rules (those not targeting
the generic scanning states), except the open angle bracket, the step
taken equals the one the mid token state notdelimited would take: a
delimiter goes to delimited and every other byte to notdelimited; on the
open angle bracket the phrase states instead fall to notdelimited while
the generic states enter the close tag chain. -/
theorem phraseFallback_amended (s : StateId) (hs : s ∈ phraseStates) (c : Nat)
    (hc : c < 256) (ctx : Ctx)
    (hno : ∀ r ∈ transitions s,
        r.toState ≠ StateId.delimited → r.toState ≠ StateId.notdelimited →
        evalGuard r.onSymbols c r.comparedTo = false)
    (h60 : signedVal c ≠ 60) :
    transitionWithChar (transitions s) c ctx =
      transitionWithChar (transitions .notdelimited) c ctx := by
  have hmap := phraseFallback_core s hs c hc hno h60
  cases h1 : findAccepting c (transitions s) with
  | none =>
      cases h2 : findAccepting c (transitions .notdelimited) with
      | none =>
          unfold transitionWithChar
          rw [h1, h2]
      | some r2 =>
          rw [h1, h2] at hmap
          simp [projTR] at hmap
  | some r1 =>
      cases h2 : findAccepting c (transitions .notdelimited) with
      | none =>
          rw [h1, h2] at hmap
          simp [projTR] at hmap
      | some r2 =>
          rw [h1, h2] at hmap
          simp [projTR] at hmap
          unfold transitionWithChar
          rw [h1, h2]
          show some (r1.toState, applyDoing r1.doing c ctx) =
            some (r2.toState, applyDoing r2.doing c ctx)
          rw [hmap.1, hmap.2]

/-- Witness for the amended C8: from win_0 the letter byte 120 is handled
exactly as notdelimited handles it. -/
theorem phraseFallback_amended_spot :
    transitionWithChar (transitions .win_0) 120 initCtx =
      transitionWithChar (transitions .notdelimited) 120 initCtx :=
  phraseFallback_amended .win_0 (by decide) 120 (by decide) initCtx (by decide) (by decide)

/-- Counterexample to C9: when a step finds no accepting rule the program
halts with the error line, which names the offending symbol but not the
offending state: scanning the byte 65 against a state with no rules
reports a message that does not contain the state name start. -/
theorem unhandledSymbolHalt_cex :
    runProg emptyTable .start initCtx [65] =
      .failure "Error: Unhandled symbol:A" [] ∧
    ¬ List.IsInfix "start".toList "Error: Unhandled symbol:A".toList := by
  refine ⟨?_, by decide⟩
  rfl

/-- Claim C9 (amended): if a step mid-scan finds no accepting rule, the
driver halts at once: the remaining input is left unconsumed, the outcome
is the failure carrying the error line that names the offending symbol
(the offending state is not named, the state pointer being already null
at the check), the exit code is -1, and no flagged identifier report is
produced. -/
theorem unhandledSymbolHalt (tbl : StateId → List transitionRecord) (s0 : StateId)
    (ctx0 : Ctx) (pre : List Nat) (s : StateId) (ctx : Ctx) (c : Nat) (rest : List Nat)
    (hpre : runFrom tbl s0 ctx0 pre = some (s, ctx))
    (hstuck : transitionWithChar (tbl s) c ctx = none) :
    runProg tbl s0 ctx0 (pre ++ c :: rest) = .failure (errLine c) rest ∧
    exitCode (runProg tbl s0 ctx0 (pre ++ c :: rest)) = -1 ∧
    spamReport (runProg tbl s0 ctx0 (pre ++ c :: rest)) = none := by
  have h1 : runProg tbl s0 ctx0 (pre ++ c :: rest) = .failure (errLine c) rest := by
    rw [runProg_append tbl pre s0 ctx0 s ctx _ hpre]
    simp only [runProg, hstuck]
  exact ⟨h1, by rw [h1]; rfl, by rw [h1]; rfl⟩

/-- Witness for the amended C9: with an empty rule table the scan of the
bytes 65 then 66 fails on 65, leaves 66 unconsumed, exits with -1 and
reports no flagged identifiers. -/
theorem unhandledSymbolHalt_spot :
    runProg emptyTable .start initCtx ([] ++ 65 :: [66]) =
      .failure (errLine 65) [66] ∧
    exitCode (runProg emptyTable .start initCtx ([] ++ 65 :: [66])) = -1 ∧
    spamReport (runProg emptyTable .start initCtx ([] ++ 65 :: [66])) = none :=
  unhandledSymbolHalt emptyTable .start initCtx [] .start initCtx 65 [66] rfl rfl
